import Mathlib

/-!
# ReplicaSet viewer (`internal/view/rs.go`)

A shallow embedding of the replica-set viewer of k9s: the `showOwner` action, the
`rollbackCmd` action with its confirmation modal, and `fetchRs`.

The collaborators the file calls but does not define (the resource factory, the
unstructured converter, the host application, the rollback DAO, the page container of
the UI toolkit) are fields of `Host`.  Every call that leaves the viewer is recorded,
in program order, as an `Effect`.
-/

namespace K9s.View

/-! ## Data model -/

/-- Go `error` value, identified by its message. -/
structure GoError where
  msg : String
deriving DecidableEq, Repr

/-- Go `errors.New`. -/
def errorsNew (text : String) : GoError := ⟨text⟩

/-- Result of a Go call: it returns a value, or it panics and unwinds the caller. -/
inductive Outcome (α : Type) where
  | ret (a : α)
  | panicked (why : String)
deriving DecidableEq, Repr

/-- Key event handed to an action (`*tcell.EventKey`). -/
structure EventKey where
  key : Nat
  rune : Char
  mods : Nat
deriving DecidableEq, Repr

/-- Owner reference of an object (`metav1.OwnerReference`): the fields the viewer reads. -/
structure OwnerReference where
  Kind : String
  Name : String
deriving DecidableEq, Repr

/-- Typed replica set (`v1.ReplicaSet`): the fields the viewer reads. -/
structure ReplicaSetObject where
  Namespace : String
  Name : String
  OwnerReferences : List OwnerReference
deriving DecidableEq, Repr

/-- Content of an unstructured object (`map[string]interface{}`), kept as flat
field/value pairs; only the converter of `Host` looks inside. -/
abbrev UnstructuredContent := List (String × String)

/-- Dynamic value of a `runtime.Object` returned by the factory: a pointer to an
`unstructured.Unstructured` (`none` is the nil pointer), or a value of any other Go type
(the nil interface included). -/
inductive RuntimeObject where
  | unstructuredPtr (u : Option UnstructuredContent)
  | other (goType : String)
deriving DecidableEq, Repr

/-- Deployment viewer built by `NewDeploy`, seen as a `model.Component`: the resource it
browses and the instance it is targeted at. -/
structure Deploy where
  gvr : String
  instance_ : String
deriving DecidableEq, Repr

/-- The closure passed to `showModal` by `rollbackCmd`; it captures the selected path. -/
structure DoneFunc where
  path : String
deriving DecidableEq, Repr

/-- Modal built by `showModal` (`tview.Modal`). -/
structure Modal where
  buttons : List String
  buttonBg : String
  textColor : String
  text : String
  done : DoneFunc
deriving DecidableEq, Repr

/-- One page of the page container `App().Content`. -/
structure Page where
  Name : String
  Item : Modal
  Resize : Bool
  Visible : Bool
deriving DecidableEq, Repr

/-- A call made by the viewer on one of its collaborators. -/
inductive Effect where
  | factoryGet (gvr path : String) (wait : Bool)
  | flashErr (err : GoError)
  | flashInfo (text : String)
  | injectView (owner : Deploy) (clearStack : Bool)
  | daoRollback (gvr path : String)
  | refresh
  | addPage (name : String) (item : Modal) (resize visible : Bool)
  | showPage (name : String)
  | removePage (name : String)
deriving DecidableEq, Repr

/-- The collaborators of a `ReplicaSet` viewer.

* `selectedItem` is `r.GetTable().GetSelectedItem()`;
* `gvr` is `r.GVR()` as printed by `%s`;
* `get` is `r.App().factory.Get` (the selector argument is always `labels.Everything()`);
* `fromUnstructured` is `runtime.DefaultUnstructuredConverter.FromUnstructured` into a
  `v1.ReplicaSet`;
* `viewerName` is `NewDeploy(gvr).Name()`;
* `inject` is `r.App().inject`;
* `rollback` is `dao.ReplicaSet.Rollback` after `Init(factory, gvr)`;
* `dialogButtonBg` is `r.App().Styles.Dialog().ButtonBgColor.Color()`. -/
structure Host where
  selectedItem : String
  gvr : String
  get : String → String → Bool → Except GoError RuntimeObject
  fromUnstructured : UnstructuredContent → Except GoError ReplicaSetObject
  viewerName : String → String
  inject : Deploy → Bool → Option GoError
  rollback : String → String → Option GoError
  dialogButtonBg : String

/-- What an action produced: the calls it made and how it ended. -/
structure Run (α : Type) where
  effects : List Effect
  result : Outcome α

/-! ## `fetchRs` -/

/-- Go `o.(*unstructured.Unstructured).Object`: the unchecked type assertion panics on
any other dynamic type, the field access on a nil pointer. -/
def assertUnstructured : RuntimeObject → Outcome UnstructuredContent
  | .unstructuredPtr (some u) => .ret u
  | .unstructuredPtr none => .panicked "invalid memory address or nil pointer dereference"
  | .other goType =>
      .panicked ("interface conversion: runtime.Object is " ++ goType ++
        ", not *unstructured.Unstructured")

/-- Go `fetchRs(f, path)`; the Go pair `(*v1.ReplicaSet, error)` is an `Except`. -/
def fetchRs (h : Host) (path : String) : Run (Except GoError ReplicaSetObject) :=
  let call := [Effect.factoryGet "apps/v1/replicasets" path true]
  match h.get "apps/v1/replicasets" path true with
  | .error err => ⟨call, .ret (.error err)⟩
  | .ok o =>
    match assertUnstructured o with
    | .panicked why => ⟨call, .panicked why⟩
    | .ret u =>
      match h.fromUnstructured u with
      | .error err => ⟨call, .ret (.error err)⟩
      | .ok rs => ⟨call, .ret (.ok rs)⟩

/-! ## `showOwner` -/

/-- Go `NewDeploy(gvr)`: a fresh viewer, not yet targeted at an instance. -/
def NewDeploy (gvr : String) : Deploy := ⟨gvr, ""⟩

/-- Go `dp.SetInstance(path)`. -/
def Deploy.SetInstance (dp : Deploy) (path : String) : Deploy :=
  { dp with instance_ := path }

/-- Go `dp.Name()`: the name of the viewer itself. -/
def Deploy.Name (h : Host) (dp : Deploy) : String := h.viewerName dp.gvr

/-- The `for ... range` loop of `showOwner`: `owner` stays nil until the first reference
of kind `Deployment`, which sets it and breaks. -/
def findOwner (h : Host) (rs : ReplicaSetObject) : List OwnerReference → Option Deploy
  | [] => none
  | ownerReference :: rest =>
    if ownerReference.Kind = "Deployment" then
      let dp := NewDeploy "apps/v1/deployments"
      some (dp.SetInstance (rs.Namespace ++ "/" ++ dp.Name h))
    else findOwner h rs rest

/-- Go `(*ReplicaSet).showOwner(evt)`; `some evt` is the event passed through, `none` is
the Go `nil`. -/
def showOwner (h : Host) (evt : EventKey) : Run (Option EventKey) :=
  let path := h.selectedItem
  if path = "" then ⟨[], .ret (some evt)⟩
  else
    let fetched := fetchRs h path
    match fetched.result with
    | .panicked why => ⟨fetched.effects, .panicked why⟩
    | .ret (.error err) => ⟨fetched.effects ++ [.flashErr err], .ret none⟩
    | .ret (.ok rs) =>
      if rs.OwnerReferences.length = 0 then
        ⟨fetched.effects ++ [.flashErr (errorsNew "no owner reference found")], .ret none⟩
      else
        match findOwner h rs rs.OwnerReferences with
        | none =>
          ⟨fetched.effects ++ [.flashErr (errorsNew "no Deployment owner reference found")],
            .ret none⟩
        | some owner =>
          match h.inject owner false with
          | some err => ⟨fetched.effects ++ [.injectView owner false, .flashErr err], .ret none⟩
          | none => ⟨fetched.effects ++ [.injectView owner false], .ret none⟩

/-! ## The page container -/

/-- Pages of `App().Content`, in insertion order. -/
abbrev Pages := List Page

/-- Remove the first page with the given name (the loop with `break` of the container). -/
def dropPage (name : String) : Pages → Pages
  | [] => []
  | p :: rest => if p.Name = name then rest else p :: dropPage name rest

/-- Page container `AddPage` (`tview.Pages`): a page that already has the name is
overwritten, the new page goes last. -/
def Pages.AddPage (ps : Pages) (name : String) (item : Modal) (resize visible : Bool) : Pages :=
  dropPage name ps ++ [⟨name, item, resize, visible⟩]

/-- Page container `ShowPage`: pages with the name become visible. -/
def Pages.ShowPage (ps : Pages) (name : String) : Pages :=
  ps.map fun p => if p.Name = name then { p with Visible := true } else p

/-- Page container `RemovePage`; which of the remaining pages the container brings to
the front is not tracked. -/
def Pages.RemovePage (ps : Pages) (name : String) : Pages :=
  dropPage name ps

/-- The confirmation requests that are outstanding: the pages named `confirm`. -/
def outstanding (ps : Pages) : List Page :=
  ps.filter fun p => p.Name = "confirm"

/-! ## `rollbackCmd` -/

/-- What a step on the viewer produced: the pages afterwards, the calls, the value. -/
structure Step (α : Type) where
  pages : Pages
  effects : List Effect
  result : α

/-- Go `(*ReplicaSet).dismissModal()`. -/
def dismissModal (ps : Pages) : Step Unit :=
  ⟨ps.RemovePage "confirm", [.removePage "confirm"], ()⟩

/-- Go `(*ReplicaSet).showModal(msg, done)`. -/
def showModal (h : Host) (ps : Pages) (msg : String) (done : DoneFunc) : Step Unit :=
  let confirm : Modal :=
    { buttons := ["Cancel", "OK"], buttonBg := h.dialogButtonBg, textColor := "fuchsia",
      text := msg, done := done }
  ⟨(ps.AddPage "confirm" confirm false false).ShowPage "confirm",
    [.addPage "confirm" confirm false false, .showPage "confirm"], ()⟩

/-- The body of the closure of `rollbackCmd` before its deferred `dismissModal` runs. -/
def rollbackBody (h : Host) (done : DoneFunc) (button : String) : List Effect :=
  if button ≠ "OK" then []
  else
    let path := done.path
    let progress := Effect.flashInfo ("Rolling back " ++ h.gvr ++ " " ++ path)
    let call := Effect.daoRollback h.gvr path
    match h.rollback h.gvr path with
    | some err => [progress, call, .flashErr err, .refresh]
    | none => [progress, call, .flashInfo (path ++ " successfully rolled back"), .refresh]

/-- The closure `func(_ int, button string)` of `rollbackCmd`, with the deferred
`dismissModal` run last. -/
def rollbackDone (h : Host) (ps : Pages) (done : DoneFunc) (_index : Int) (button : String) :
    Step Unit :=
  let body := rollbackBody h done button
  let dismissed := dismissModal ps
  ⟨dismissed.pages, body ++ dismissed.effects, ()⟩

/-- Go `(*ReplicaSet).rollbackCmd(evt)`. -/
def rollbackCmd (h : Host) (ps : Pages) (evt : EventKey) : Step (Option EventKey) :=
  let path := h.selectedItem
  if path = "" then ⟨ps, [], some evt⟩
  else
    let shown := showModal h ps ("Rollback " ++ h.gvr ++ " " ++ path ++ "?") ⟨path⟩
    ⟨shown.pages, shown.effects, none⟩

/-! ## Sequences of invocations and answers -/

/-- What can happen to one viewer: the rollback key is pressed with some row selected,
or a button of the confirmation modal is pressed. -/
inductive Input where
  | rollbackKey (selected : String) (evt : EventKey)
  | answer (index : Int) (button : String)
deriving DecidableEq, Repr

/-- The confirmation page a button press is delivered to, if there is one. -/
def confirmPage (ps : Pages) : Option Page :=
  ps.find? fun p => p.Name = "confirm"

/-- One input: the rollback key runs `rollbackCmd` on the current selection, a button
press runs the done function of the modal on the `confirm` page. -/
def step (h : Host) (ps : Pages) : Input → Pages × List Effect
  | .rollbackKey selected evt =>
    let r := rollbackCmd { h with selectedItem := selected } ps evt
    (r.pages, r.effects)
  | .answer index button =>
    match confirmPage ps with
    | none => (ps, [])
    | some p =>
      let r := rollbackDone h ps p.Item.done index button
      (r.pages, r.effects)

/-- Run a sequence of inputs, collecting the calls. -/
def runInputs (h : Host) : Pages → List Input → Pages × List Effect
  | ps, [] => (ps, [])
  | ps, i :: rest =>
    let s := step h ps i
    let t := runInputs h s.1 rest
    (t.1, s.2 ++ t.2)

/-! ## Counting calls -/

/-- Number of `factory.Get` calls. -/
def countGet (es : List Effect) : Nat :=
  es.countP fun e => match e with | .factoryGet _ _ _ => true | _ => false

/-- Number of error notifications. -/
def countFlashErr (es : List Effect) : Nat :=
  es.countP fun e => match e with | .flashErr _ => true | _ => false

/-- Number of info notifications. -/
def countFlashInfo (es : List Effect) : Nat :=
  es.countP fun e => match e with | .flashInfo _ => true | _ => false

/-- Number of viewer switches. -/
def countInject (es : List Effect) : Nat :=
  es.countP fun e => match e with | .injectView _ _ => true | _ => false

/-- Number of remote rollback calls. -/
def countRollback (es : List Effect) : Nat :=
  es.countP fun e => match e with | .daoRollback _ _ => true | _ => false

/-- Number of table refreshes. -/
def countRefresh (es : List Effect) : Nat :=
  es.countP fun e => match e with | .refresh => true | _ => false

/-- Number of modal dismissals. -/
def countRemovePage (es : List Effect) : Nat :=
  es.countP fun e => match e with | .removePage _ => true | _ => false

/-! ## Concrete hosts -/

/-- A host with the row `default/web-5d9c` selected whose remote calls all succeed; the
replica set is owned by the deployment `web`. -/
def demoHost : Host :=
  { selectedItem := "default/web-5d9c"
    gvr := "apps/v1/replicasets"
    get := fun _ _ _ => .ok (.unstructuredPtr (some [("metadata.name", "web-5d9c")]))
    fromUnstructured := fun _ => .ok ⟨"default", "web-5d9c", [⟨"Deployment", "web"⟩]⟩
    viewerName := fun _ => "deployments"
    inject := fun _ _ => none
    rollback := fun _ _ => none
    dialogButtonBg := "darkslateblue" }

/-- The event of the key that triggers an action. -/
def demoEvt : EventKey := ⟨12, 'l', 2⟩

/-- The modal `rollbackCmd` opens for the selected path. -/
def rollbackModal (h : Host) : Modal :=
  { buttons := ["Cancel", "OK"], buttonBg := h.dialogButtonBg, textColor := "fuchsia",
    text := "Rollback " ++ h.gvr ++ " " ++ h.selectedItem ++ "?",
    done := ⟨h.selectedItem⟩ }

/-- The demo host with a remote rollback that fails. -/
def failingRollbackHost : Host :=
  { demoHost with rollback := fun _ _ => some ⟨"replicasets.apps is forbidden"⟩ }

/-- The demo host with a replica set that has no owner reference. -/
def orphanHost : Host :=
  { demoHost with fromUnstructured := fun _ => .ok ⟨"default", "web-5d9c", []⟩ }

/-- The demo host with a replica set owned by a rollout and a stateful set only. -/
def foreignOwnerHost : Host :=
  { demoHost with
    fromUnstructured := fun _ =>
      .ok ⟨"default", "web-5d9c", [⟨"Rollout", "web"⟩, ⟨"StatefulSet", "db"⟩]⟩ }

/-- The demo host with a remote get that fails. -/
def failingGetHost : Host :=
  { demoHost with get := fun _ _ _ => .error ⟨"replicasets.apps not found"⟩ }

/-- The demo host with a given name for new deployment viewers and a replica set in
`default` whose owner references are given. -/
def ownedHost (viewerName : String → String) (refs : List OwnerReference) : Host :=
  { demoHost with
    viewerName := viewerName
    fromUnstructured := fun _ => .ok ⟨"default", "web-5d9c", refs⟩ }

/-- The demo host with a factory that returns a typed replica set instead of an
unstructured object. -/
def typedObjectHost : Host :=
  { demoHost with get := fun _ _ _ => .ok (.other "*v1.ReplicaSet") }

/-- The demo host with a converter that rejects the object. -/
def undecodableHost : Host :=
  { demoHost with
    fromUnstructured := fun _ => .error ⟨"unrecognized type: int32"⟩ }

/-! ## The confirmed and the cancelled rollback -/

theorem rollbackCmd_selected (h : Host) (ps : Pages) (evt : EventKey)
    (hsel : h.selectedItem ≠ "") :
    rollbackCmd h ps evt =
      ⟨(ps.AddPage "confirm" (rollbackModal h) false false).ShowPage "confirm",
        [.addPage "confirm" (rollbackModal h) false false, .showPage "confirm"], none⟩ := by
  simp [rollbackCmd, hsel, showModal, rollbackModal]

/-- C2. With a non-empty selection `rollbackCmd` opens the confirm modal with a callback
for the selected path; when that callback receives `OK` and the remote rollback returns
no error, its calls are, in order: the in-progress notification, one rollback of the
selected path, the success notification `<path> successfully rolled back`, one refresh,
the dismissal of the confirm modal.  No error notification is made. -/
theorem rollback_confirmed_success (h : Host) (ps : Pages) (evt : EventKey)
    (hsel : h.selectedItem ≠ "") (hok : h.rollback h.gvr h.selectedItem = none) :
    (rollbackCmd h ps evt).effects =
        [.addPage "confirm" (rollbackModal h) false false, .showPage "confirm"] ∧
    (rollbackModal h).done = ⟨h.selectedItem⟩ ∧
    ∀ (ps1 : Pages) (index : Int),
      let r := rollbackDone h ps1 (rollbackModal h).done index "OK"
      r.effects =
        [.flashInfo ("Rolling back " ++ h.gvr ++ " " ++ h.selectedItem),
         .daoRollback h.gvr h.selectedItem,
         .flashInfo (h.selectedItem ++ " successfully rolled back"),
         .refresh,
         .removePage "confirm"] ∧
      countRollback r.effects = 1 ∧ countRefresh r.effects = 1 ∧
      countFlashInfo r.effects = 2 ∧ countFlashErr r.effects = 0 ∧
      countRemovePage r.effects = 1 ∧
      r.pages = ps1.RemovePage "confirm" := by
  refine ⟨by rw [rollbackCmd_selected h ps evt hsel], rfl, ?_⟩
  intro ps1 index
  simp [rollbackDone, rollbackBody, rollbackModal, hok, dismissModal, countRollback,
    countRefresh, countFlashInfo, countFlashErr, countRemovePage]

theorem rollback_confirmed_success_witness :
    demoHost.selectedItem ≠ "" ∧ demoHost.rollback demoHost.gvr demoHost.selectedItem = none ∧
    (rollbackDone demoHost [] ⟨"default/web-5d9c"⟩ 1 "OK").effects =
      [.flashInfo "Rolling back apps/v1/replicasets default/web-5d9c",
       .daoRollback "apps/v1/replicasets" "default/web-5d9c",
       .flashInfo "default/web-5d9c successfully rolled back",
       .refresh,
       .removePage "confirm"] :=
  ⟨by decide, rfl,
    ((rollback_confirmed_success demoHost [] demoEvt (by decide) rfl).2.2 [] 1).1⟩

/-- The success text is never the in-progress text: only the latter has a capital `R`
outside the path. -/
theorem success_ne_progress (g p : String) :
    p ++ " successfully rolled back" ≠ "Rolling back " ++ g ++ " " ++ p := by
  intro h
  have hc := congrArg (fun s : String => s.data.count 'R') h
  simp [String.data_append, List.count_append] at hc
  have h1 : List.count 'R' " successfully rolled back".data = 0 := by decide
  have h2 : List.count 'R' "Rolling back ".data = 1 := by decide
  have h3 : List.count 'R' " ".data = 0 := by decide
  omega

/-- C3. With a non-empty selection, when the callback opened by `rollbackCmd` receives
`OK` and the remote rollback returns the error `e`: the rollback is called once, one
error notification is made and it carries `e`, no success notification is made, one
refresh follows the notification, the modal is dismissed, and the callback returns. -/
theorem rollback_confirmed_failure (h : Host) (ps : Pages) (evt : EventKey) (e : GoError)
    (hsel : h.selectedItem ≠ "") (herr : h.rollback h.gvr h.selectedItem = some e) :
    (rollbackCmd h ps evt).effects =
        [.addPage "confirm" (rollbackModal h) false false, .showPage "confirm"] ∧
    (rollbackModal h).done = ⟨h.selectedItem⟩ ∧
    ∀ (ps1 : Pages) (index : Int),
      let r := rollbackDone h ps1 (rollbackModal h).done index "OK"
      r.effects =
        [.flashInfo ("Rolling back " ++ h.gvr ++ " " ++ h.selectedItem),
         .daoRollback h.gvr h.selectedItem,
         .flashErr e,
         .refresh,
         .removePage "confirm"] ∧
      countRollback r.effects = 1 ∧ countFlashErr r.effects = 1 ∧
      countFlashInfo r.effects = 1 ∧
      Effect.flashInfo (h.selectedItem ++ " successfully rolled back") ∉ r.effects ∧
      countRefresh r.effects = 1 ∧ countRemovePage r.effects = 1 ∧
      r.pages = ps1.RemovePage "confirm" ∧ r.result = () := by
  refine ⟨by rw [rollbackCmd_selected h ps evt hsel], rfl, ?_⟩
  intro ps1 index
  simp [rollbackDone, rollbackBody, rollbackModal, herr, dismissModal, countRollback,
    countRefresh, countFlashInfo, countFlashErr, countRemovePage]
  exact success_ne_progress h.gvr h.selectedItem

theorem rollback_confirmed_failure_witness :
    failingRollbackHost.selectedItem ≠ "" ∧
    failingRollbackHost.rollback failingRollbackHost.gvr failingRollbackHost.selectedItem =
      some ⟨"replicasets.apps is forbidden"⟩ ∧
    (rollbackDone failingRollbackHost [] ⟨"default/web-5d9c"⟩ 1 "OK").effects =
      [.flashInfo "Rolling back apps/v1/replicasets default/web-5d9c",
       .daoRollback "apps/v1/replicasets" "default/web-5d9c",
       .flashErr ⟨"replicasets.apps is forbidden"⟩,
       .refresh,
       .removePage "confirm"] :=
  ⟨by decide, rfl,
    ((rollback_confirmed_failure failingRollbackHost [] demoEvt
      ⟨"replicasets.apps is forbidden"⟩ (by decide) rfl).2.2 [] 1).1⟩

/-- C4. For every button label other than `OK` the callback opened by `rollbackCmd` makes
no remote call, no notification and no refresh: its only call is one dismissal of the
confirm modal. -/
theorem rollback_not_confirmed (h : Host) (ps : Pages) (done : DoneFunc) (index : Int)
    (button : String) (hbtn : button ≠ "OK") :
    (rollbackDone h ps done index button).effects = [.removePage "confirm"] ∧
    countRollback (rollbackDone h ps done index button).effects = 0 ∧
    countGet (rollbackDone h ps done index button).effects = 0 ∧
    countFlashErr (rollbackDone h ps done index button).effects = 0 ∧
    countFlashInfo (rollbackDone h ps done index button).effects = 0 ∧
    countRefresh (rollbackDone h ps done index button).effects = 0 ∧
    countRemovePage (rollbackDone h ps done index button).effects = 1 ∧
    (rollbackDone h ps done index button).pages = ps.RemovePage "confirm" := by
  simp [rollbackDone, rollbackBody, hbtn, dismissModal, countRollback, countGet,
    countRefresh, countFlashInfo, countFlashErr, countRemovePage]

theorem rollback_not_confirmed_witness :
    "Cancel" ≠ "OK" ∧ "" ≠ "OK" ∧
    (rollbackDone demoHost [] ⟨"default/web-5d9c"⟩ 0 "Cancel").effects =
      [.removePage "confirm"] ∧
    (rollbackDone demoHost [] ⟨"default/web-5d9c"⟩ 0 "").effects = [.removePage "confirm"] :=
  ⟨by decide, by decide,
    (rollback_not_confirmed demoHost [] ⟨"default/web-5d9c"⟩ 0 "Cancel" (by decide)).1,
    (rollback_not_confirmed demoHost [] ⟨"default/web-5d9c"⟩ 0 "" (by decide)).1⟩

/-- C7. With the empty string selected, `showOwner` and `rollbackCmd` each return the
event they were given and make no call at all; `rollbackCmd` leaves the pages as they
were. -/
theorem empty_selection_passes_through (h : Host) (ps : Pages) (evt : EventKey)
    (hsel : h.selectedItem = "") :
    showOwner h evt = ⟨[], .ret (some evt)⟩ ∧ rollbackCmd h ps evt = ⟨ps, [], some evt⟩ := by
  simp [showOwner, rollbackCmd, hsel]

theorem empty_selection_passes_through_witness :
    ({ demoHost with selectedItem := "" } : Host).selectedItem = "" ∧
    showOwner { demoHost with selectedItem := "" } demoEvt = ⟨[], .ret (some demoEvt)⟩ ∧
    rollbackCmd { demoHost with selectedItem := "" } [] demoEvt = ⟨[], [], some demoEvt⟩ :=
  ⟨rfl, empty_selection_passes_through { demoHost with selectedItem := "" } [] demoEvt rfl⟩

/-! ## `fetchRs` and `showOwner` -/

theorem fetchRs_effects (h : Host) (path : String) :
    (fetchRs h path).effects = [.factoryGet "apps/v1/replicasets" path true] := by
  unfold fetchRs
  cases h.get "apps/v1/replicasets" path true with
  | error err => rfl
  | ok o =>
    cases hu : assertUnstructured o with
    | panicked why => simp [hu]
    | ret u => cases hc : h.fromUnstructured u <;> simp [hu, hc]

theorem fetchRs_get_error (h : Host) (path : String) (e : GoError)
    (hget : h.get "apps/v1/replicasets" path true = .error e) :
    (fetchRs h path).result = .ret (.error e) := by
  simp [fetchRs, hget]

theorem fetchRs_unstructured (h : Host) (path : String) (u : UnstructuredContent)
    (hget : h.get "apps/v1/replicasets" path true = .ok (.unstructuredPtr (some u))) :
    (fetchRs h path).result = .ret (h.fromUnstructured u) := by
  unfold fetchRs
  rw [hget]
  cases hc : h.fromUnstructured u <;> simp [assertUnstructured, hc]

theorem findOwner_none (h : Host) (rs : ReplicaSetObject) (refs : List OwnerReference)
    (hkind : ∀ ref ∈ refs, ref.Kind ≠ "Deployment") : findOwner h rs refs = none := by
  induction refs with
  | nil => rfl
  | cons ref rest ih =>
    have hhead : ref.Kind ≠ "Deployment" := hkind ref (List.mem_cons_self ref rest)
    have htail : ∀ r ∈ rest, r.Kind ≠ "Deployment" :=
      fun r hr => hkind r (List.mem_cons_of_mem ref hr)
    simp [findOwner, hhead, ih htail]

theorem findOwner_some (h : Host) (rs : ReplicaSetObject) (refs : List OwnerReference)
    (hkind : ∃ ref ∈ refs, ref.Kind = "Deployment") :
    findOwner h rs refs =
      some ⟨"apps/v1/deployments", rs.Namespace ++ "/" ++ h.viewerName "apps/v1/deployments"⟩ := by
  induction refs with
  | nil => simp at hkind
  | cons ref rest ih =>
    by_cases hhead : ref.Kind = "Deployment"
    · simp [findOwner, hhead, NewDeploy, Deploy.SetInstance, Deploy.Name]
    · have htail : ∃ r ∈ rest, r.Kind = "Deployment" := by
        obtain ⟨r, hr, hk⟩ := hkind
        rcases List.mem_cons.mp hr with heq | hmem
        · exact absurd (heq ▸ hk) hhead
        · exact ⟨r, hmem, hk⟩
      simp [findOwner, hhead, ih htail]

/-- C5. With a non-empty selection whose fetched replica set has no owner reference,
`showOwner` makes one error notification with the message `no owner reference found`,
switches no viewer and returns nil. -/
theorem showOwner_no_owner_reference (h : Host) (evt : EventKey) (rs : ReplicaSetObject)
    (hsel : h.selectedItem ≠ "")
    (hfetch : (fetchRs h h.selectedItem).result = .ret (.ok rs))
    (hrefs : rs.OwnerReferences = []) :
    showOwner h evt =
      ⟨[.factoryGet "apps/v1/replicasets" h.selectedItem true,
        .flashErr ⟨"no owner reference found"⟩], .ret none⟩ ∧
    countFlashErr (showOwner h evt).effects = 1 ∧
    countInject (showOwner h evt).effects = 0 := by
  have hrun : showOwner h evt =
      ⟨[.factoryGet "apps/v1/replicasets" h.selectedItem true,
        .flashErr ⟨"no owner reference found"⟩], .ret none⟩ := by
    simp [showOwner, hsel, hfetch, hrefs, fetchRs_effects, errorsNew]
  rw [hrun]
  simp [countFlashErr, countInject]

theorem showOwner_no_owner_reference_witness :
    orphanHost.selectedItem ≠ "" ∧
    (fetchRs orphanHost orphanHost.selectedItem).result =
      .ret (.ok ⟨"default", "web-5d9c", []⟩) ∧
    showOwner orphanHost demoEvt =
      ⟨[.factoryGet "apps/v1/replicasets" "default/web-5d9c" true,
        .flashErr ⟨"no owner reference found"⟩], .ret none⟩ :=
  ⟨by decide, rfl,
    (showOwner_no_owner_reference orphanHost demoEvt ⟨"default", "web-5d9c", []⟩
      (by decide) rfl rfl).1⟩

/-- C6. With a non-empty selection whose fetched replica set has owner references, none
of kind `Deployment`, `showOwner` makes one error notification with the message
`no Deployment owner reference found`, which is not the message of the case without
references, switches no viewer and returns nil. -/
theorem showOwner_no_deployment_owner (h : Host) (evt : EventKey) (rs : ReplicaSetObject)
    (hsel : h.selectedItem ≠ "")
    (hfetch : (fetchRs h h.selectedItem).result = .ret (.ok rs))
    (hrefs : rs.OwnerReferences ≠ [])
    (hkind : ∀ ref ∈ rs.OwnerReferences, ref.Kind ≠ "Deployment") :
    showOwner h evt =
      ⟨[.factoryGet "apps/v1/replicasets" h.selectedItem true,
        .flashErr ⟨"no Deployment owner reference found"⟩], .ret none⟩ ∧
    errorsNew "no Deployment owner reference found" ≠ errorsNew "no owner reference found" ∧
    countFlashErr (showOwner h evt).effects = 1 ∧
    countInject (showOwner h evt).effects = 0 := by
  have hlen : rs.OwnerReferences.length ≠ 0 := by
    simpa [List.length_eq_zero] using hrefs
  have hrun : showOwner h evt =
      ⟨[.factoryGet "apps/v1/replicasets" h.selectedItem true,
        .flashErr ⟨"no Deployment owner reference found"⟩], .ret none⟩ := by
    simp [showOwner, hsel, hfetch, hlen, findOwner_none h rs rs.OwnerReferences hkind,
      fetchRs_effects, errorsNew]
  rw [hrun]
  refine ⟨rfl, by decide, ?_, ?_⟩ <;> simp [countFlashErr, countInject]

theorem showOwner_no_deployment_owner_witness :
    foreignOwnerHost.selectedItem ≠ "" ∧
    (fetchRs foreignOwnerHost foreignOwnerHost.selectedItem).result =
      .ret (.ok ⟨"default", "web-5d9c", [⟨"Rollout", "web"⟩, ⟨"StatefulSet", "db"⟩]⟩) ∧
    showOwner foreignOwnerHost demoEvt =
      ⟨[.factoryGet "apps/v1/replicasets" "default/web-5d9c" true,
        .flashErr ⟨"no Deployment owner reference found"⟩], .ret none⟩ :=
  ⟨by decide, rfl,
    (showOwner_no_deployment_owner foreignOwnerHost demoEvt
      ⟨"default", "web-5d9c", [⟨"Rollout", "web"⟩, ⟨"StatefulSet", "db"⟩]⟩
      (by decide) rfl (by simp) (by decide)).1⟩

/-- C8. With a non-empty selection, when the remote get returns the error `e`,
`showOwner` makes one get call and one error notification, which carries `e`; no other
notification is made, no viewer is switched, and nil is returned. -/
theorem showOwner_get_error (h : Host) (evt : EventKey) (e : GoError)
    (hsel : h.selectedItem ≠ "")
    (hget : h.get "apps/v1/replicasets" h.selectedItem true = .error e) :
    showOwner h evt =
      ⟨[.factoryGet "apps/v1/replicasets" h.selectedItem true, .flashErr e], .ret none⟩ ∧
    (∀ err, Effect.flashErr err ∈ (showOwner h evt).effects → err = e) ∧
    countGet (showOwner h evt).effects = 1 ∧
    countFlashErr (showOwner h evt).effects = 1 ∧
    countFlashInfo (showOwner h evt).effects = 0 ∧
    countInject (showOwner h evt).effects = 0 := by
  have hrun : showOwner h evt =
      ⟨[.factoryGet "apps/v1/replicasets" h.selectedItem true, .flashErr e], .ret none⟩ := by
    simp [showOwner, hsel, fetchRs_get_error h h.selectedItem e hget, fetchRs_effects]
  rw [hrun]
  simp [countGet, countFlashErr, countFlashInfo, countInject]

theorem showOwner_get_error_witness :
    failingGetHost.selectedItem ≠ "" ∧
    failingGetHost.get "apps/v1/replicasets" failingGetHost.selectedItem true =
      .error ⟨"replicasets.apps not found"⟩ ∧
    showOwner failingGetHost demoEvt =
      ⟨[.factoryGet "apps/v1/replicasets" "default/web-5d9c" true,
        .flashErr ⟨"replicasets.apps not found"⟩], .ret none⟩ :=
  ⟨by decide, rfl,
    (showOwner_get_error failingGetHost demoEvt ⟨"replicasets.apps not found"⟩
      (by decide) rfl).1⟩

/-- What `showOwner` does when a `Deployment` owner reference exists: one viewer switch,
to the instance built from the namespace and the name of the new viewer. -/
theorem showOwner_deployment_owner (h : Host) (evt : EventKey) (rs : ReplicaSetObject)
    (hsel : h.selectedItem ≠ "")
    (hfetch : (fetchRs h h.selectedItem).result = .ret (.ok rs))
    (hkind : ∃ ref ∈ rs.OwnerReferences, ref.Kind = "Deployment")
    (hinject : ∀ owner, h.inject owner false = none) :
    showOwner h evt =
      ⟨[.factoryGet "apps/v1/replicasets" h.selectedItem true,
        .injectView
          ⟨"apps/v1/deployments", rs.Namespace ++ "/" ++ h.viewerName "apps/v1/deployments"⟩
          false], .ret none⟩ := by
  have hlen : rs.OwnerReferences.length ≠ 0 := by
    obtain ⟨ref, hmem, _⟩ := hkind
    intro hzero
    rw [List.length_eq_zero] at hzero
    rw [hzero] at hmem
    exact absurd hmem (List.not_mem_nil ref)
  simp [showOwner, hsel, hfetch, hlen, findOwner_some h rs rs.OwnerReferences hkind,
    fetchRs_effects, hinject]

/-- C1, evaluated. For the replica set `default/web-5d9c` owned by the deployment `web`,
and for the same replica set owned by the deployment `api`, `showOwner` switches once to
a deployment viewer, makes no rollback call and returns nil; the instance of the viewer
is `default/` followed by the name of the new viewer in both cases, so it is not the
namespace and owner name in both. With the viewer name `deployments` the instance for
the owner `web` is `default/deployments`. -/
theorem showOwner_instance_ignores_owner_name (viewerName : String → String) :
    showOwner (ownedHost viewerName [⟨"Deployment", "web"⟩]) demoEvt =
      ⟨[.factoryGet "apps/v1/replicasets" "default/web-5d9c" true,
        .injectView ⟨"apps/v1/deployments", "default/" ++ viewerName "apps/v1/deployments"⟩
          false], .ret none⟩ ∧
    showOwner (ownedHost viewerName [⟨"Deployment", "api"⟩]) demoEvt =
      ⟨[.factoryGet "apps/v1/replicasets" "default/web-5d9c" true,
        .injectView ⟨"apps/v1/deployments", "default/" ++ viewerName "apps/v1/deployments"⟩
          false], .ret none⟩ ∧
    ¬ ("default/" ++ viewerName "apps/v1/deployments" = "default/web" ∧
       "default/" ++ viewerName "apps/v1/deployments" = "default/api") ∧
    showOwner (ownedHost (fun _ => "deployments") [⟨"Deployment", "web"⟩]) demoEvt =
      ⟨[.factoryGet "apps/v1/replicasets" "default/web-5d9c" true,
        .injectView ⟨"apps/v1/deployments", "default/deployments"⟩ false], .ret none⟩ ∧
    countRollback (showOwner (ownedHost viewerName [⟨"Deployment", "web"⟩]) demoEvt).effects
      = 0 := by
  have hweb := showOwner_deployment_owner (ownedHost viewerName [⟨"Deployment", "web"⟩])
    demoEvt ⟨"default", "web-5d9c", [⟨"Deployment", "web"⟩]⟩
    (show "default/web-5d9c" ≠ "" by decide) rfl
    ⟨⟨"Deployment", "web"⟩, by simp, rfl⟩ (fun _ => rfl)
  have hapi := showOwner_deployment_owner (ownedHost viewerName [⟨"Deployment", "api"⟩])
    demoEvt ⟨"default", "web-5d9c", [⟨"Deployment", "api"⟩]⟩
    (show "default/web-5d9c" ≠ "" by decide) rfl
    ⟨⟨"Deployment", "api"⟩, by simp, rfl⟩ (fun _ => rfl)
  have hdep := showOwner_deployment_owner
    (ownedHost (fun _ => "deployments") [⟨"Deployment", "web"⟩])
    demoEvt ⟨"default", "web-5d9c", [⟨"Deployment", "web"⟩]⟩ (by decide) rfl
    ⟨⟨"Deployment", "web"⟩, by simp, rfl⟩ (fun _ => rfl)
  refine ⟨hweb, hapi, ?_, hdep, ?_⟩
  · rintro ⟨h1, h2⟩
    have hne : "default/web" ≠ "default/api" := by decide
    exact hne (h1.symm.trans h2)
  · rw [hweb]
    simp [countRollback]

/-! ## The unchecked type assertion of `fetchRs` -/

/-- C10 fails as stated. When the remote get returns, without error, an object that is
not a pointer to an unstructured object, `fetchRs` panics in the type assertion: it
returns neither a replica set nor an error, and `showOwner` panics with it, without any
notification. -/
theorem fetchRs_panics_on_typed_object :
    (fetchRs typedObjectHost "default/web-5d9c").result =
      .panicked
        "interface conversion: runtime.Object is *v1.ReplicaSet, not *unstructured.Unstructured" ∧
    (∀ r, (fetchRs typedObjectHost "default/web-5d9c").result ≠ .ret r) ∧
    (showOwner typedObjectHost demoEvt).result =
      .panicked
        "interface conversion: runtime.Object is *v1.ReplicaSet, not *unstructured.Unstructured" ∧
    (showOwner typedObjectHost demoEvt).effects =
      [.factoryGet "apps/v1/replicasets" "default/web-5d9c" true] := by
  have hres : (fetchRs typedObjectHost "default/web-5d9c").result =
      .panicked
        "interface conversion: runtime.Object is *v1.ReplicaSet, not *unstructured.Unstructured" := by
    rfl
  refine ⟨hres, ?_, by rfl, by rfl⟩
  intro r hr
  rw [hres] at hr
  cases hr

/-- C10, amended. For every non-nil unstructured object the remote get returns without
error, `fetchRs` returns what the converter returns, the decoded replica set or the
error of the converter; with a non-empty selection `showOwner` reports that error as its
one notification and returns nil. -/
theorem fetchRs_unstructured_returns (h : Host) (evt : EventKey) (u : UnstructuredContent)
    (hsel : h.selectedItem ≠ "")
    (hget : h.get "apps/v1/replicasets" h.selectedItem true =
      .ok (.unstructuredPtr (some u))) :
    (fetchRs h h.selectedItem).result = .ret (h.fromUnstructured u) ∧
    ((∃ rs, (fetchRs h h.selectedItem).result = .ret (.ok rs)) ∨
     (∃ e, (fetchRs h h.selectedItem).result = .ret (.error e))) ∧
    ∀ e, h.fromUnstructured u = .error e →
      showOwner h evt =
        ⟨[.factoryGet "apps/v1/replicasets" h.selectedItem true, .flashErr e], .ret none⟩ := by
  have hres := fetchRs_unstructured h h.selectedItem u hget
  refine ⟨hres, ?_, ?_⟩
  · rw [hres]
    cases h.fromUnstructured u with
    | error e => exact Or.inr ⟨e, rfl⟩
    | ok rs => exact Or.inl ⟨rs, rfl⟩
  · intro e he
    rw [he] at hres
    simp [showOwner, hsel, hres, fetchRs_effects]

theorem fetchRs_unstructured_returns_witness :
    undecodableHost.selectedItem ≠ "" ∧
    undecodableHost.get "apps/v1/replicasets" undecodableHost.selectedItem true =
      .ok (.unstructuredPtr (some [("metadata.name", "web-5d9c")])) ∧
    showOwner undecodableHost demoEvt =
      ⟨[.factoryGet "apps/v1/replicasets" "default/web-5d9c" true,
        .flashErr ⟨"unrecognized type: int32"⟩], .ret none⟩ :=
  ⟨by decide, rfl,
    (fetchRs_unstructured_returns undecodableHost demoEvt [("metadata.name", "web-5d9c")]
      (by decide) rfl).2.2 ⟨"unrecognized type: int32"⟩ rfl⟩

/-! ## Outstanding confirmation requests -/

theorem outstanding_dropPage (ps : Pages) (hone : (outstanding ps).length ≤ 1) :
    outstanding (dropPage "confirm" ps) = [] := by
  induction ps with
  | nil => rfl
  | cons p rest ih =>
    by_cases hp : p.Name = "confirm"
    · have hrest : (outstanding rest).length = 0 := by
        simp [outstanding, hp] at hone
        simpa [outstanding] using hone
      simpa [dropPage, hp] using List.length_eq_zero.mp hrest
    · have hrest : (outstanding rest).length ≤ 1 := by
        simpa [outstanding, hp] using hone
      simpa [dropPage, hp, outstanding] using ih hrest

theorem outstanding_append (ps qs : Pages) :
    outstanding (ps ++ qs) = outstanding ps ++ outstanding qs := by
  simp [outstanding]

theorem outstanding_showPage (ps : Pages) :
    outstanding (ps.ShowPage "confirm") =
      (outstanding ps).map fun p => { p with Visible := true } := by
  induction ps with
  | nil => rfl
  | cons p rest ih =>
    by_cases hp : p.Name = "confirm"
    · simpa [outstanding, Pages.ShowPage, hp] using ih
    · simpa [outstanding, Pages.ShowPage, hp] using ih

theorem outstanding_rollbackCmd (h : Host) (ps : Pages) (evt : EventKey)
    (hsel : h.selectedItem ≠ "") (hone : (outstanding ps).length ≤ 1) :
    outstanding (rollbackCmd h ps evt).pages = [⟨"confirm", rollbackModal h, false, true⟩] := by
  rw [rollbackCmd_selected h ps evt hsel]
  simp only [Pages.AddPage]
  rw [outstanding_showPage, outstanding_append, outstanding_dropPage ps hone]
  simp [outstanding]

theorem outstanding_dismiss (ps : Pages) (hone : (outstanding ps).length ≤ 1) :
    outstanding (ps.RemovePage "confirm") = [] :=
  outstanding_dropPage ps hone

theorem outstanding_step (h : Host) (ps : Pages) (i : Input)
    (hone : (outstanding ps).length ≤ 1) : (outstanding (step h ps i).1).length ≤ 1 := by
  cases i with
  | rollbackKey selected evt =>
    by_cases hsel : selected = ""
    · simpa [step, rollbackCmd, hsel] using hone
    · have hnew := outstanding_rollbackCmd { h with selectedItem := selected } ps evt hsel hone
      simp [step, hnew]
  | answer index button =>
    cases hc : confirmPage ps with
    | none => simpa [step, hc] using hone
    | some p =>
      simp [step, hc, rollbackDone, dismissModal, outstanding_dismiss ps hone]

theorem outstanding_runInputs (h : Host) (inputs : List Input) :
    ∀ ps : Pages, (outstanding ps).length ≤ 1 →
      (outstanding (runInputs h ps inputs).1).length ≤ 1 := by
  induction inputs with
  | nil => intro ps hone; simpa [runInputs] using hone
  | cons i rest ih =>
    intro ps hone
    simpa [runInputs] using ih (step h ps i).1 (outstanding_step h ps i hone)

/-- C9 fails as stated. On the demo host the rollback key is pressed on `default/a` and,
before any answer, on `default/b`. The second `rollbackCmd` is not rejected: it makes
the same two page calls as the first and returns nil. It is not queued either: the one
outstanding request is the one for `default/b`, no page carries the callback of
`default/a` any more, the answer `OK` rolls back `default/b` only, and after it no
request is left. -/
theorem second_rollback_replaces_first :
    (step demoHost [] (.rollbackKey "default/a" demoEvt)).2 =
      [.addPage "confirm" (rollbackModal { demoHost with selectedItem := "default/a" })
          false false, .showPage "confirm"] ∧
    (step demoHost (step demoHost [] (.rollbackKey "default/a" demoEvt)).1
        (.rollbackKey "default/b" demoEvt)).2 =
      [.addPage "confirm" (rollbackModal { demoHost with selectedItem := "default/b" })
          false false, .showPage "confirm"] ∧
    (rollbackCmd { demoHost with selectedItem := "default/b" }
        (step demoHost [] (.rollbackKey "default/a" demoEvt)).1 demoEvt).result = none ∧
    (runInputs demoHost []
        [.rollbackKey "default/a" demoEvt, .rollbackKey "default/b" demoEvt]).1 =
      [⟨"confirm", rollbackModal { demoHost with selectedItem := "default/b" }, false, true⟩] ∧
    (∀ p ∈ (runInputs demoHost []
        [.rollbackKey "default/a" demoEvt, .rollbackKey "default/b" demoEvt]).1,
      p.Item.done ≠ ⟨"default/a"⟩) ∧
    runInputs demoHost []
        [.rollbackKey "default/a" demoEvt, .rollbackKey "default/b" demoEvt,
         .answer 1 "OK", .answer 1 "OK"] =
      ([],
       [.addPage "confirm" (rollbackModal { demoHost with selectedItem := "default/a" })
          false false, .showPage "confirm",
        .addPage "confirm" (rollbackModal { demoHost with selectedItem := "default/b" })
          false false, .showPage "confirm",
        .flashInfo "Rolling back apps/v1/replicasets default/b",
        .daoRollback "apps/v1/replicasets" "default/b",
        .flashInfo "default/b successfully rolled back",
        .refresh,
        .removePage "confirm"]) := by
  refine ⟨by decide, by decide, by decide, by decide, by decide, by decide⟩

/-- C9, amended. In every state reached from pages with at most one `confirm` page by a
sequence of rollback keys and answers, at most one confirmation request is outstanding;
a `rollbackCmd` with a non-empty selection in such a state opens its modal and returns
nil, and afterwards the one outstanding request is the new one. -/
theorem single_confirm_by_replacement (h : Host) (ps : Pages) (inputs : List Input)
    (selected : String) (evt : EventKey)
    (hone : (outstanding ps).length ≤ 1) (hsel : selected ≠ "") :
    (outstanding (runInputs h ps inputs).1).length ≤ 1 ∧
    rollbackCmd { h with selectedItem := selected } (runInputs h ps inputs).1 evt =
      ⟨((runInputs h ps inputs).1.AddPage "confirm"
          (rollbackModal { h with selectedItem := selected }) false false).ShowPage "confirm",
        [.addPage "confirm" (rollbackModal { h with selectedItem := selected }) false false,
         .showPage "confirm"], none⟩ ∧
    outstanding
        (rollbackCmd { h with selectedItem := selected } (runInputs h ps inputs).1 evt).pages =
      [⟨"confirm", rollbackModal { h with selectedItem := selected }, false, true⟩] := by
  have hreach := outstanding_runInputs h inputs ps hone
  exact ⟨hreach,
    rollbackCmd_selected { h with selectedItem := selected } (runInputs h ps inputs).1 evt hsel,
    outstanding_rollbackCmd { h with selectedItem := selected } (runInputs h ps inputs).1 evt
      hsel hreach⟩

theorem single_confirm_by_replacement_witness :
    (outstanding ([] : Pages)).length ≤ 1 ∧ "default/b" ≠ "" ∧
    (outstanding (runInputs demoHost []
      [.rollbackKey "default/a" demoEvt, .answer 0 "Cancel",
       .rollbackKey "default/a" demoEvt]).1).length ≤ 1 ∧
    outstanding
        (rollbackCmd { demoHost with selectedItem := "default/b" }
          (runInputs demoHost []
            [.rollbackKey "default/a" demoEvt, .answer 0 "Cancel",
             .rollbackKey "default/a" demoEvt]).1 demoEvt).pages =
      [⟨"confirm", rollbackModal { demoHost with selectedItem := "default/b" }, false, true⟩] :=
  ⟨by decide, by decide,
    (single_confirm_by_replacement demoHost []
      [.rollbackKey "default/a" demoEvt, .answer 0 "Cancel", .rollbackKey "default/a" demoEvt]
      "default/b" demoEvt (by decide) (by decide)).1,
    (single_confirm_by_replacement demoHost []
      [.rollbackKey "default/a" demoEvt, .answer 0 "Cancel", .rollbackKey "default/a" demoEvt]
      "default/b" demoEvt (by decide) (by decide)).2.2⟩

end K9s.View
